import Mathlib

/-
Verification of the Selkies signalling server (src/web.py): the WebSocket
message loop of websocket_handler, the CORS middleware cors_middleware, and
the route behavior they determine.
-/

namespace Selkies

/-- Python str.startswith, as used in websocket_handler (web.py lines 17, 20):
`data.startswith(pre)` holds when the character sequence of `pre` is an
initial segment of the character sequence of `data`. -/
def startswith (s pre : String) : Bool :=
  pre.toList.isPrefixOf s.toList

/-- The kinds of WebSocket events observed by the `async for msg in ws` loop
in websocket_handler (web.py lines 14-30): a TEXT frame carrying a payload,
a CLOSED event, or an ERROR event. -/
inductive WSEvent where
  | text (data : String)
  | closed
  | error
deriving DecidableEq, Repr

/-- One iteration of the message loop in websocket_handler (web.py lines
15-30). Returns the strings sent with send_str, the lines printed, and
whether the loop breaks:
  - TEXT starting with HELLO: send "HELLO" (line 19);
  - TEXT starting with SESSION: send "SESSION_OK" (line 22);
  - any other TEXT: only print "Received: " plus the payload (line 26);
  - CLOSED: break (line 28);
  - ERROR: print and continue (line 30). -/
def stepMsg : WSEvent → List String × List String × Bool
  | WSEvent.text data =>
      if startswith data "HELLO" then (["HELLO"], [], false)
      else if startswith data "SESSION" then (["SESSION_OK"], [], false)
      else ([], ["Received: " ++ data], false)
  | WSEvent.closed => ([], [], true)
  | WSEvent.error => ([], ["ws connection closed with exception"], false)

/-- The whole message loop of websocket_handler over a sequence of inbound
events: accumulates the sent strings and the printed lines in order,
stopping at the first event whose iteration breaks. -/
def runLoop : List WSEvent → List String × List String
  | [] => ([], [])
  | e :: rest =>
      let r := stepMsg e
      if r.2.2 then (r.1, r.2.1)
      else (r.1 ++ (runLoop rest).1, r.2.1 ++ (runLoop rest).2)

/-- The reply websocket_handler dispatches for a single text payload, read
off the three branches of web.py lines 17-26: some "HELLO", some
"SESSION_OK", or none. -/
def frameReply (data : String) : Option String :=
  if startswith data "HELLO" then some "HELLO"
  else if startswith data "SESSION" then some "SESSION_OK"
  else none

/-- The reply dispatched for one event: text frames reply per frameReply,
CLOSED and ERROR events never reply. -/
def wsReplyOf : WSEvent → Option String
  | WSEvent.text d => frameReply d
  | WSEvent.closed => none
  | WSEvent.error => none

lemma stepMsg_not_break (e : WSEvent) (he : e ≠ WSEvent.closed) :
    (stepMsg e).2.2 = false := by
  cases e with
  | text d =>
      by_cases h1 : startswith d "HELLO"
      · simp [stepMsg, h1]
      · by_cases h2 : startswith d "SESSION" <;> simp [stepMsg, h1, h2]
  | closed => exact absurd rfl he
  | error => rfl

lemma runLoop_append (l1 l2 : List WSEvent) (h : WSEvent.closed ∉ l1) :
    runLoop (l1 ++ l2)
      = ((runLoop l1).1 ++ (runLoop l2).1, (runLoop l1).2 ++ (runLoop l2).2) := by
  induction l1 with
  | nil => simp [runLoop]
  | cons e rest ih =>
      have he : e ≠ WSEvent.closed := fun hc => h (hc ▸ List.mem_cons_self _ _)
      have hrest : WSEvent.closed ∉ rest := fun hm => h (List.mem_cons_of_mem _ hm)
      simp [runLoop, stepMsg_not_break e he, ih hrest, List.append_assoc]

lemma runLoop_single_text (p : String) :
    runLoop [WSEvent.text p] = ((frameReply p).toList, (stepMsg (WSEvent.text p)).2.1) := by
  by_cases h1 : startswith p "HELLO"
  · simp [runLoop, stepMsg, frameReply, h1]
  · by_cases h2 : startswith p "SESSION" <;>
      simp [runLoop, stepMsg, frameReply, h1, h2]

lemma isPrefixOf_cons_head {α : Type} [DecidableEq α] (a : α) (l t : List α)
    (h : (a :: l).isPrefixOf t = true) : ∃ t', t = a :: t' := by
  cases t with
  | nil => simp [List.isPrefixOf] at h
  | cons b t' =>
      simp [List.isPrefixOf] at h
      exact ⟨t', by rw [h.1]⟩

lemma session_not_hello (s : String) (hs : startswith s "SESSION" = true) :
    startswith s "HELLO" = false := by
  unfold startswith at hs ⊢
  have hS : "SESSION".toList = 'S' :: "ESSION".toList := rfl
  rw [hS] at hs
  obtain ⟨t, ht⟩ := isPrefixOf_cons_head _ _ _ hs
  have hH : "HELLO".toList = 'H' :: "ELLO".toList := rfl
  rw [hH, ht]
  simp [List.isPrefixOf]

/-- An HTTP response envelope as seen by the middleware: status, body, a
header multimap with set-replaces semantics, and the aiohttp prepared flag
(true once the envelope has been committed to the transport). -/
structure Response where
  status : Nat
  body : String
  headers : List (String × String)
  prepared : Bool
deriving DecidableEq, Repr

/-- aiohttp web.Response() with no arguments (web.py line 51): status 200,
empty body, no headers, not yet prepared. -/
def emptyResponse : Response :=
  { status := 200, body := "", headers := [], prepared := false }

/-- response.headers[k] = v for a CIMultiDict: any existing entries for the
key are replaced by the single new pair. -/
def setHeader (hs : List (String × String)) (k v : String) : List (String × String) :=
  hs.filter (fun p => p.1 != k) ++ [(k, v)]

/-- Header lookup: the value stored for a key, if any. -/
def getHeader (hs : List (String × String)) (k : String) : Option String :=
  (hs.find? (fun p => p.1 == k)).map (fun p => p.2)

/-- The three header assignments of web.py lines 64-66. -/
def setCorsHeaders (r : Response) : Response :=
  let h1 := setHeader r.headers "Access-Control-Allow-Origin" "*"
  let h2 := setHeader h1 "Access-Control-Allow-Methods" "POST, GET, OPTIONS, PUT, DELETE"
  let h3 := setHeader h2 "Access-Control-Allow-Headers" "Content-Type, Authorization"
  { r with headers := h3 }

/-- The outcome of awaiting the wrapped route handler inside the try of
cors_middleware (web.py line 53): a normal response, a raised
web.HTTPException (which is itself a response), or any other exception
carrying its str() text. -/
inductive HandlerResult where
  | ok (r : Response)
  | httpException (e : Response)
  | exn (msg : String)
deriving DecidableEq, Repr

/-- The try/except block of cors_middleware (web.py lines 49-60), producing
the response together with the lines printed: OPTIONS short-circuits to an
empty response without consulting the handler; web.HTTPException becomes the
response itself; any other exception is printed (message and traceback) and
becomes a 500 whose body is the exception text. -/
def handlerResponse (method : String) (handler : HandlerResult) : Response × List String :=
  if method = "OPTIONS" then (emptyResponse, [])
  else
    match handler with
    | HandlerResult.ok r => (r, [])
    | HandlerResult.httpException e => (e, [])
    | HandlerResult.exn msg =>
        ({ status := 500, body := msg, headers := [], prepared := false },
         ["Error handling request: " ++ msg, "Traceback (most recent call last): " ++ msg])

/-- cors_middleware (web.py lines 47-68): run the try/except dispatch, then
set the three CORS headers if and only if the response is not prepared
(lines 62-66), and return the response with the log lines. -/
def cors_middleware (method : String) (handler : HandlerResult) : Response × List String :=
  let r := handlerResponse method handler
  if !r.1.prepared then (setCorsHeaders r.1, r.2) else r

lemma find?_filter_out_key (hs : List (String × String)) (k : String) :
    (hs.filter (fun p => p.1 != k)).find? (fun p => p.1 == k) = none := by
  rw [List.find?_eq_none]
  intro x hx
  rcases List.mem_filter.1 hx with ⟨_, hpx⟩
  simp at hpx ⊢
  exact hpx

lemma getHeader_setHeader_self (hs : List (String × String)) (k v : String) :
    getHeader (setHeader hs k v) k = some v := by
  simp [setHeader, getHeader, List.find?_append, find?_filter_out_key, List.find?]

lemma find?_filter_other_key (hs : List (String × String)) (k k' : String)
    (h : k ≠ k') :
    (hs.filter (fun p => p.1 != k')).find? (fun p => p.1 == k)
      = hs.find? (fun p => p.1 == k) := by
  induction hs with
  | nil => rfl
  | cons a t ih =>
      by_cases ha : a.1 = k'
      · have h2 : (k' == k) = false := by simpa using Ne.symm h
        simp [List.filter_cons, List.find?, ha, h2, ih]
      · by_cases hak : (a.1 == k) = true
        · simp [List.filter_cons, List.find?, ha, hak]
        · simp [List.filter_cons, List.find?, ha, hak, ih]

lemma getHeader_setHeader_ne (hs : List (String × String)) (k k' v : String)
    (h : k ≠ k') : getHeader (setHeader hs k' v) k = getHeader hs k := by
  have htail : List.find? (fun p => p.1 == k) [(k', v)] = none := by
    have hk : (k' == k) = false := by simpa using Ne.symm h
    simp [List.find?, hk]
  simp [setHeader, getHeader, List.find?_append, find?_filter_other_key hs k k' h, htail]

lemma setCorsHeaders_status (r : Response) : (setCorsHeaders r).status = r.status := rfl

lemma setCorsHeaders_body (r : Response) : (setCorsHeaders r).body = r.body := rfl

lemma setCorsHeaders_headers (r : Response) :
    (setCorsHeaders r).headers
      = setHeader (setHeader (setHeader r.headers
          "Access-Control-Allow-Origin" "*")
          "Access-Control-Allow-Methods" "POST, GET, OPTIONS, PUT, DELETE")
          "Access-Control-Allow-Headers" "Content-Type, Authorization" := rfl

lemma getHeader_setCorsHeaders_origin (r : Response) :
    getHeader (setCorsHeaders r).headers "Access-Control-Allow-Origin" = some "*" := by
  rw [setCorsHeaders_headers,
      getHeader_setHeader_ne _ _ _ _ (by decide),
      getHeader_setHeader_ne _ _ _ _ (by decide),
      getHeader_setHeader_self]

lemma getHeader_setCorsHeaders_methods (r : Response) :
    getHeader (setCorsHeaders r).headers "Access-Control-Allow-Methods"
      = some "POST, GET, OPTIONS, PUT, DELETE" := by
  rw [setCorsHeaders_headers,
      getHeader_setHeader_ne _ _ _ _ (by decide),
      getHeader_setHeader_self]

lemma getHeader_setCorsHeaders_allowed (r : Response) :
    getHeader (setCorsHeaders r).headers "Access-Control-Allow-Headers"
      = some "Content-Type, Authorization" := by
  rw [setCorsHeaders_headers, getHeader_setHeader_self]

/-- Modelled from the spec: the GET /turn route handler belongs to the
repository server variants that are not present in src/web.py (whose router
only registers "/", "/ws" and static files). Per the spec it returns status
200 with content type application/json and body \x7b"iceServers": []\x7d. -/
def turn_response : Response :=
  { status := 200,
    body := "\x7b\"iceServers\": []\x7d",
    headers := [("Content-Type", "application/json")],
    prepared := false }

/-- C3: every text frame whose payload starts with "HELLO", at any point of
the message loop (the handler keeps no protocol state, so this covers any
protocol state), makes websocket_handler send back exactly the text
"HELLO". -/
theorem hello_reply (hist : List WSEvent) (s : String)
    (hc : WSEvent.closed ∉ hist) (hs : startswith s "HELLO" = true) :
    (runLoop (hist ++ [WSEvent.text s])).1 = (runLoop hist).1 ++ ["HELLO"] := by
  rw [runLoop_append hist _ hc]
  simp [runLoop, stepMsg, hs]

theorem hello_reply_witness :
    (runLoop ([WSEvent.text "SESSION start"] ++ [WSEvent.text "HELLO world"])).1
      = (runLoop [WSEvent.text "SESSION start"]).1 ++ ["HELLO"] :=
  hello_reply [WSEvent.text "SESSION start"] "HELLO world" (by decide) (by decide)

/-- C4: every text frame whose payload starts with "SESSION", at any point
of the message loop, makes websocket_handler send back exactly the text
"SESSION_OK" (a SESSION-prefixed payload never takes the HELLO branch,
since the two prefixes differ at their first character). -/
theorem session_reply (hist : List WSEvent) (s : String)
    (hc : WSEvent.closed ∉ hist) (hs : startswith s "SESSION" = true) :
    (runLoop (hist ++ [WSEvent.text s])).1 = (runLoop hist).1 ++ ["SESSION_OK"] := by
  rw [runLoop_append hist _ hc]
  simp [runLoop, stepMsg, hs, session_not_hello s hs]

theorem session_reply_witness :
    (runLoop ([WSEvent.text "HELLO first"] ++ [WSEvent.text "SESSION abc"])).1
      = (runLoop [WSEvent.text "HELLO first"]).1 ++ ["SESSION_OK"] :=
  session_reply [WSEvent.text "HELLO first"] "SESSION abc" (by decide) (by decide)

/-- C9: a text frame whose payload starts with neither "HELLO" nor
"SESSION" gets no reply: the loop iteration sends nothing, only prints
"Received: " plus the payload, and does not break, so the connection stays
open and the loop continues with the next frame. The witness instantiates
this at the empty payload, which matches neither prefix. -/
theorem unrecognized_discarded (p : String)
    (h1 : startswith p "HELLO" = false) (h2 : startswith p "SESSION" = false) :
    stepMsg (WSEvent.text p) = ([], ["Received: " ++ p], false) := by
  simp [stepMsg, h1, h2]

theorem unrecognized_discarded_witness :
    stepMsg (WSEvent.text "") = ([], ["Received: " ++ ""], false) :=
  unrecognized_discarded "" (by decide) (by decide)

/-- C1 counterexample: after a "SESSION" frame (which the spec regards as
establishing the connection), the non-prefixed payload "ping" receives no
reply at all from websocket_handler: the sent strings are exactly
["SESSION_OK"], and in particular "Echo: ping" is never sent. -/
theorem echo_counterexample :
    (runLoop [WSEvent.text "SESSION", WSEvent.text "ping"]).1 = ["SESSION_OK"] ∧
    "Echo: ping" ∉ (runLoop [WSEvent.text "SESSION", WSEvent.text "ping"]).1 := by
  decide

/-- C1 amended: a text frame whose payload starts with neither "HELLO" nor
"SESSION", received at any point of the loop, produces no reply at all (no
echo); the handler only prints "Received: " plus the payload and discards
the message. -/
theorem unrecognized_no_echo (hist : List WSEvent) (p : String)
    (hc : WSEvent.closed ∉ hist)
    (h1 : startswith p "HELLO" = false) (h2 : startswith p "SESSION" = false) :
    (runLoop (hist ++ [WSEvent.text p])).1 = (runLoop hist).1 ∧
    (runLoop (hist ++ [WSEvent.text p])).2 = (runLoop hist).2 ++ ["Received: " ++ p] := by
  rw [runLoop_append hist _ hc]
  constructor
  · simp [runLoop, stepMsg, h1, h2]
  · simp [runLoop, stepMsg, h1, h2]

theorem unrecognized_no_echo_witness :
    (runLoop ([WSEvent.text "SESSION"] ++ [WSEvent.text "data"])).1
        = (runLoop [WSEvent.text "SESSION"]).1 ∧
    (runLoop ([WSEvent.text "SESSION"] ++ [WSEvent.text "data"])).2
        = (runLoop [WSEvent.text "SESSION"]).2 ++ ["Received: " ++ "data"] :=
  unrecognized_no_echo [WSEvent.text "SESSION"] "data" (by decide) (by decide) (by decide)

/-- C6 counterexample: websocket_handler keeps no protocol state and never
echoes. After "SESSION" (per the spec the connection is then Established)
and a later "HELLO", the next non-prefixed payload "data1" receives no
reply: the sent strings are exactly ["SESSION_OK", "HELLO"], refuting that
subsequent non-prefixed messages receive echo behavior. -/
theorem state_machine_counterexample :
    (runLoop [WSEvent.text "SESSION", WSEvent.text "HELLO", WSEvent.text "data1"]).1
        = ["SESSION_OK", "HELLO"] ∧
    "Echo: data1"
        ∉ (runLoop [WSEvent.text "SESSION", WSEvent.text "HELLO", WSEvent.text "data1"]).1 := by
  decide

/-- C6 amended: the handler keeps no per-connection protocol phase, so
trivially nothing regresses: after any prior history (in particular one
containing SESSION and then HELLO), the reply to a further frame is
determined by that frame alone (frameReply), appended to the replies of the
history; a later HELLO still yields exactly "HELLO" and a non-prefixed
message still yields no reply, never an echo. -/
theorem stateless_no_regression (hist : List WSEvent) (p : String)
    (hc : WSEvent.closed ∉ hist) :
    (runLoop (hist ++ [WSEvent.text p])).1
      = (runLoop hist).1 ++ (frameReply p).toList := by
  rw [runLoop_append hist _ hc, runLoop_single_text]

theorem stateless_no_regression_witness :
    (runLoop ([WSEvent.text "SESSION", WSEvent.text "HELLO"] ++ [WSEvent.text "HELLO again"])).1
      = (runLoop [WSEvent.text "SESSION", WSEvent.text "HELLO"]).1
          ++ (frameReply "HELLO again").toList :=
  stateless_no_regression [WSEvent.text "SESSION", WSEvent.text "HELLO"] "HELLO again"
    (by decide)

/-- C10: the per-frame behavior is stateless and deterministic: over any
event sequence that does not contain a CLOSED event, the strings sent by
websocket_handler are exactly the per-frame replies wsReplyOf of the
individual events, in order — a function of each frame payload alone,
independent of connection history. -/
theorem per_frame_determinism (msgs : List WSEvent) (hc : WSEvent.closed ∉ msgs) :
    (runLoop msgs).1 = msgs.filterMap wsReplyOf := by
  induction msgs with
  | nil => rfl
  | cons e rest ih =>
      have he : e ≠ WSEvent.closed := fun h => hc (h ▸ List.mem_cons_self _ _)
      have hrest : WSEvent.closed ∉ rest := fun hm => hc (List.mem_cons_of_mem _ hm)
      rw [List.filterMap_cons]
      cases e with
      | text d =>
          by_cases h1 : startswith d "HELLO"
          · simp [runLoop, stepMsg, wsReplyOf, frameReply, h1, ih hrest]
          · by_cases h2 : startswith d "SESSION" <;>
              simp [runLoop, stepMsg, wsReplyOf, frameReply, h1, h2, ih hrest]
      | closed => exact absurd rfl he
      | error => simp [runLoop, stepMsg, wsReplyOf, ih hrest]

theorem per_frame_determinism_witness :
    (runLoop [WSEvent.text "HELLO a", WSEvent.error, WSEvent.text "x",
              WSEvent.text "SESSION b"]).1
      = [WSEvent.text "HELLO a", WSEvent.error, WSEvent.text "x",
         WSEvent.text "SESSION b"].filterMap wsReplyOf :=
  per_frame_determinism
    [WSEvent.text "HELLO a", WSEvent.error, WSEvent.text "x", WSEvent.text "SESSION b"]
    (by decide)

/-- C5: the middleware sets the three CORS headers if and only if the
response produced by the dispatch is not yet prepared: when unprepared, the
returned response is exactly the dispatched response with the three headers
set to their literal values; when already prepared (committed), the
response is returned untouched. This holds for every method and every
handler outcome, so unprepared 404 (HTTPException) and 500 (generic fault)
responses all carry the three headers. -/
theorem cors_headers_iff_unprepared (m : String) (hr : HandlerResult) :
    ((handlerResponse m hr).1.prepared = false →
        (cors_middleware m hr).1 = setCorsHeaders (handlerResponse m hr).1 ∧
        getHeader (cors_middleware m hr).1.headers "Access-Control-Allow-Origin"
          = some "*" ∧
        getHeader (cors_middleware m hr).1.headers "Access-Control-Allow-Methods"
          = some "POST, GET, OPTIONS, PUT, DELETE" ∧
        getHeader (cors_middleware m hr).1.headers "Access-Control-Allow-Headers"
          = some "Content-Type, Authorization") ∧
    ((handlerResponse m hr).1.prepared = true →
        (cors_middleware m hr).1 = (handlerResponse m hr).1) := by
  constructor
  · intro hp
    have hmw : (cors_middleware m hr).1 = setCorsHeaders (handlerResponse m hr).1 := by
      simp [cors_middleware, hp]
    rw [hmw]
    exact ⟨rfl, getHeader_setCorsHeaders_origin _, getHeader_setCorsHeaders_methods _,
      getHeader_setCorsHeaders_allowed _⟩
  · intro hp
    simp [cors_middleware, hp]

theorem cors_headers_iff_unprepared_witness :
    (cors_middleware "GET" (HandlerResult.httpException
        { status := 404, body := "Not Found", headers := [], prepared := false })).1
      = setCorsHeaders (handlerResponse "GET" (HandlerResult.httpException
        { status := 404, body := "Not Found", headers := [], prepared := false })).1 ∧
    getHeader (cors_middleware "GET" (HandlerResult.httpException
        { status := 404, body := "Not Found", headers := [], prepared := false })).1.headers
      "Access-Control-Allow-Origin" = some "*" ∧
    getHeader (cors_middleware "GET" (HandlerResult.httpException
        { status := 404, body := "Not Found", headers := [], prepared := false })).1.headers
      "Access-Control-Allow-Methods" = some "POST, GET, OPTIONS, PUT, DELETE" ∧
    getHeader (cors_middleware "GET" (HandlerResult.httpException
        { status := 404, body := "Not Found", headers := [], prepared := false })).1.headers
      "Access-Control-Allow-Headers" = some "Content-Type, Authorization" :=
  (cors_headers_iff_unprepared "GET" (HandlerResult.httpException
    { status := 404, body := "Not Found", headers := [], prepared := false })).1 rfl

/-- C7: a web.HTTPException raised by the wrapped handler becomes the
response itself, its status and body preserved; any other exception becomes
a 500 response whose body is exactly the exception text, with the error and
traceback printed server-side (the log contains the full message) and
nothing beyond the message text in the client-visible body. -/
theorem fault_handling (m : String) (hm : m ≠ "OPTIONS") :
    (∀ e : Response,
        (cors_middleware m (HandlerResult.httpException e)).1.status = e.status ∧
        (cors_middleware m (HandlerResult.httpException e)).1.body = e.body) ∧
    (∀ msg : String,
        (cors_middleware m (HandlerResult.exn msg)).1.status = 500 ∧
        (cors_middleware m (HandlerResult.exn msg)).1.body = msg ∧
        ("Error handling request: " ++ msg) ∈ (cors_middleware m (HandlerResult.exn msg)).2) := by
  constructor
  · intro e
    by_cases hp : e.prepared
    · simp [cors_middleware, handlerResponse, hm, hp]
    · simp [cors_middleware, handlerResponse, hm, hp, setCorsHeaders_status,
        setCorsHeaders_body]
  · intro msg
    simp [cors_middleware, handlerResponse, hm, setCorsHeaders_status, setCorsHeaders_body]

theorem fault_handling_witness :
    (cors_middleware "GET" (HandlerResult.exn "boom")).1.status = 500 ∧
    (cors_middleware "GET" (HandlerResult.exn "boom")).1.body = "boom" ∧
    ("Error handling request: " ++ "boom")
      ∈ (cors_middleware "GET" (HandlerResult.exn "boom")).2 :=
  (fault_handling "GET" (by decide)).2 "boom"

/-- C8: an OPTIONS request short-circuits: the middleware result does not
depend on the wrapped handler outcome at all, and is a response with status
200, empty body, and the three CORS headers. -/
theorem options_shortcircuit :
    (∀ h1 h2 : HandlerResult,
        cors_middleware "OPTIONS" h1 = cors_middleware "OPTIONS" h2) ∧
    (∀ h : HandlerResult,
        (cors_middleware "OPTIONS" h).1.status = 200 ∧
        (cors_middleware "OPTIONS" h).1.body = "" ∧
        getHeader (cors_middleware "OPTIONS" h).1.headers "Access-Control-Allow-Origin"
          = some "*" ∧
        getHeader (cors_middleware "OPTIONS" h).1.headers "Access-Control-Allow-Methods"
          = some "POST, GET, OPTIONS, PUT, DELETE" ∧
        getHeader (cors_middleware "OPTIONS" h).1.headers "Access-Control-Allow-Headers"
          = some "Content-Type, Authorization") := by
  constructor
  · intro h1 h2
    rfl
  · intro h
    have hc : cors_middleware "OPTIONS" h = (setCorsHeaders emptyResponse, []) := rfl
    rw [hc]
    exact ⟨rfl, rfl, getHeader_setCorsHeaders_origin _, getHeader_setCorsHeaders_methods _,
      getHeader_setCorsHeaders_allowed _⟩

/-- C2: a GET request routed to the /turn handler yields, through the
middleware, status 200 with content type application/json and body exactly
the JSON text with key "iceServers" mapped to the empty array. The handler
itself is modelled from the spec (see turn_response), as src/web.py does
not register this route. -/
theorem turn_endpoint :
    (cors_middleware "GET" (HandlerResult.ok turn_response)).1.status = 200 ∧
    getHeader (cors_middleware "GET" (HandlerResult.ok turn_response)).1.headers
      "Content-Type" = some "application/json" ∧
    (cors_middleware "GET" (HandlerResult.ok turn_response)).1.body
      = "\x7b\"iceServers\": []\x7d" := by
  decide

end Selkies
